import Mathlib

/-!
# Neutron exporter (`neutron.go`)

A shallow embedding of the neutron exporter of the OpenStack exporter: the
descriptor table `defaultNeutronMetrics`, the constructor `NewNeutronExporter`,
`RefreshClient` and the scrape entry point `Collect`.

`Collect` writes samples to a channel, talks to the identity layer and to the
network service, writes log lines and can abort in `MustNewConstMetric`.  All
four effects are recorded in a `Run` value that is threaded through the body
statement by statement, in source order.
-/

set_option autoImplicit false

namespace Neutron

/-! ## Data model -/

/-- Entry of a metric table (the package's `Metric` type): the fields the
exporter reads, `Name` and `Labels`.  A nil `Labels` slice is the empty list. -/
structure Metric where
  Name : String
  Labels : List String
deriving DecidableEq, Repr

/-- The table `defaultNeutronMetrics` (neutron.go, lines 16-22). -/
def defaultNeutronMetrics : List Metric :=
  [ { Name := "floating_ips", Labels := [] },
    { Name := "networks", Labels := [] },
    { Name := "security_groups", Labels := [] },
    { Name := "subnets", Labels := [] },
    { Name := "agent_state", Labels := ["hostname", "service", "adminState"] } ]

/-- Metric descriptor: a name and the ordered label names. -/
structure Desc where
  name : String
  variableLabels : List String
deriving DecidableEq, Repr

/-- The `Config *Cloud` handed to the constructor; the exporter only stores it. -/
structure Cloud where
  settings : List (String × String)
deriving DecidableEq, Repr

/-- State of the goose authenticating client, reduced to the session it holds. -/
structure AuthenticatingClient where
  session : String
deriving DecidableEq, Repr

/-- The `neutron.Client`: a service client wrapped around the authenticating
client it was built from. -/
structure NeutronClient where
  client : AuthenticatingClient
deriving DecidableEq, Repr

/-- The call `neutron.New(client)`. -/
def neutronNew (client : AuthenticatingClient) : NeutronClient :=
  { client := client }

/-- Go struct `BaseOpenStackExporter`: the fields the neutron exporter sets or
reads.  `Metrics` is the map from metric name to descriptor, kept as an
association list whose first entry for a key is the one a lookup returns. -/
structure BaseOpenStackExporter where
  Name : String
  Prefix : String
  Config : Cloud
  AuthenticatingClient : AuthenticatingClient
  Metrics : List (String × Desc)
deriving DecidableEq, Repr

/-- Go struct `NeutronExporter` (lines 11-14): the embedded base exporter and
the service client. -/
structure NeutronExporter extends BaseOpenStackExporter where
  Client : NeutronClient
deriving DecidableEq, Repr

/-- The map read `exporter.Metrics[name]`; `none` is the nil descriptor a Go map
returns for a missing key. -/
def lookupMetric (metrics : List (String × Desc)) (name : String) : Option Desc :=
  match metrics with
  | [] => none
  | (k, d) :: rest => if k = name then some d else lookupMetric rest name

/-- Modelled from the spec: `BaseOpenStackExporter.AddMetric`, which is not in
src/.  The descriptor collection is a mapping from name to descriptor with
unique keys, each descriptor (name, ordered label names) registered once and
immutable afterwards: a new name is entered with its descriptor, a name already
present keeps the descriptor it has.  The third argument (constant labels) is
always nil at the call site and is left out. -/
def BaseOpenStackExporter.AddMetric (b : BaseOpenStackExporter) (name : String)
    (labels : List String) : BaseOpenStackExporter :=
  match lookupMetric b.Metrics name with
  | some _ => b
  | none => { b with Metrics := b.Metrics ++ [(name, { name := name, variableLabels := labels })] }

/-- Items of the four counted lists; only their number is read. -/
structure FloatingIPV2 where
  Id : String
deriving DecidableEq, Repr

structure NetworkV2 where
  Id : String
deriving DecidableEq, Repr

structure SecurityGroupV2 where
  Id : String
deriving DecidableEq, Repr

structure SubnetV2 where
  Id : String
deriving DecidableEq, Repr

/-- A network agent, with the four fields `Collect` reads. -/
structure AgentV2 where
  Host : String
  Binary : String
  Alive : Bool
  AdminStateUp : Bool
deriving DecidableEq, Repr

/-- The two value types used by `Collect`. -/
inductive ValueType where
  | CounterValue
  | GaugeValue
deriving DecidableEq, Repr

/-- A constant metric as `MustNewConstMetric` builds it.  `value` is the integer
that the source converts with `float64(...)` (0, 1 or a slice length). -/
structure ConstMetric where
  desc : Desc
  valType : ValueType
  value : Nat
  labelValues : List String
deriving DecidableEq, Repr

/-- The call `prometheus.MustNewConstMetric(desc, valType, value, labelValues...)`.
It aborts (`none`) when the descriptor is nil or when the number of label values
differs from the number of label names of the descriptor. -/
def MustNewConstMetric (desc : Option Desc) (valType : ValueType) (value : Nat)
    (labelValues : List String) : Option ConstMetric :=
  match desc with
  | none => none
  | some d =>
    if d.variableLabels.length = labelValues.length then
      some { desc := d, valType := valType, value := value, labelValues := labelValues }
    else none

/-- What lies outside the exporter, as seen through the goose client: the
identity layer and the network service.  Each operation gives the Go result of
the call.  `Authenticate` works on the client in place, so it also gives the
state of the client after the call; a list call gives the slice and the error
(`none` is a nil error). -/
structure Env where
  Authenticate : AuthenticatingClient → AuthenticatingClient × Option String
  ListFloatingIPsV2 : NeutronClient → List FloatingIPV2 × Option String
  ListAgentsV2 : NeutronClient → List AgentV2 × Option String
  ListNetworksV2 : NeutronClient → List NetworkV2 × Option String
  ListSecurityGroupsV2 : NeutronClient → List SecurityGroupV2 × Option String
  ListSubnetsV2 : NeutronClient → List SubnetV2 × Option String

/-- Outbound calls. -/
inductive Call where
  | Authenticate
  | ListFloatingIPsV2
  | ListAgentsV2
  | ListNetworksV2
  | ListSecurityGroupsV2
  | ListSubnetsV2
deriving DecidableEq, Repr

/-- Calls of the logging package, recorded with their arguments. -/
inductive LogEntry where
  | Infoln (msg : String)
  | Error (err : String)
  | Errorf (format : String) (args : List String)
deriving DecidableEq, Repr

/-- The effects of a call of an exporter method: the exporter after the
statements executed so far, the samples written to the channel, the outbound
calls, the log, and whether the goroutine has aborted. -/
structure Run where
  exporter : NeutronExporter
  sent : List ConstMetric
  calls : List Call
  log : List LogEntry
  panicked : Bool
deriving DecidableEq, Repr

/-- A run that has executed nothing yet. -/
def Run.start (exporter : NeutronExporter) : Run :=
  { exporter := exporter, sent := [], calls := [], log := [], panicked := false }

/-- A logging statement; nothing executes after an abort. -/
def Run.logs (r : Run) (entry : LogEntry) : Run :=
  if r.panicked then r else { r with log := r.log ++ [entry] }

/-- The statement `if err != nil { log ... }`. -/
def Run.logErr (r : Run) (err : Option String) (entry : String → LogEntry) : Run :=
  match err with
  | some e => r.logs (entry e)
  | none => r

/-- An outbound call is issued. -/
def Run.calling (r : Run) (c : Call) : Run :=
  if r.panicked then r else { r with calls := r.calls ++ [c] }

/-- The statement `ch <- prometheus.MustNewConstMetric(...)`: the sample is
written to the channel, or the run aborts when the constructor does. -/
def Run.send (r : Run) (m : Option ConstMetric) : Run :=
  if r.panicked then r
  else
    match m with
    | some s => { r with sent := r.sent ++ [s] }
    | none => { r with panicked := true }

/-! ## The exporter -/

/-- `NewNeutronExporter` (lines 24-40).  The result is the Go pair
`(*NeutronExporter, error)`; `none` is the nil error. -/
def NewNeutronExporter (client : AuthenticatingClient) (pfx : String) (config : Cloud) :
    NeutronExporter × Option String :=
  let exporter : NeutronExporter :=
    { Name := "neutron",
      Prefix := pfx,
      Config := config,
      AuthenticatingClient := client,
      Metrics := [],
      Client := neutronNew client }
  let exporter := defaultNeutronMetrics.foldl
    (fun (e : NeutronExporter) (metric : Metric) =>
      { e with toBaseOpenStackExporter := e.toBaseOpenStackExporter.AddMetric metric.Name metric.Labels })
    exporter
  (exporter, none)

/-- `RefreshClient` (lines 48-56): the run after the call and the returned error. -/
def RefreshClient (env : Env) (r : Run) : Run × Option String :=
  let r := r.logs (.Infoln "Refreshing auth client in case token has expired")
  let res := env.Authenticate r.exporter.AuthenticatingClient
  let r := r.calling .Authenticate
  let r := { r with exporter := { r.exporter with AuthenticatingClient := res.1 } }
  match res.2 with
  | some err => (r, some ("Error authenticating neutron client: " ++ err))
  | none =>
    ({ r with exporter := { r.exporter with Client := neutronNew r.exporter.AuthenticatingClient } },
      none)

/-- Body of the loop over the agents (lines 77-87). -/
def agentStep (r : Run) (agent : AgentV2) : Run :=
  let state : Nat := if agent.Alive then 1 else 0
  let adminState : String := if agent.AdminStateUp then "up" else "down"
  r.send (MustNewConstMetric (lookupMetric r.exporter.Metrics "agent_state")
    .CounterValue state [agent.Host, agent.Binary, adminState])

/-- `Collect` (lines 58-119). -/
def Collect (env : Env) (exporter : NeutronExporter) : Run :=
  match RefreshClient env (Run.start exporter) with
  | (r, some err) => r.logs (.Error err)
  | (r, none) =>
    let r := r.logs (.Infoln "Fetching floating ips list")
    let floatingips := env.ListFloatingIPsV2 r.exporter.Client
    let r := r.calling .ListFloatingIPsV2
    let r := r.logErr floatingips.2 (fun e => .Errorf "%s" [e])
    let r := r.logs (.Infoln "Fetching agents list")
    let agents := env.ListAgentsV2 r.exporter.Client
    let r := r.calling .ListAgentsV2
    let r := r.logErr agents.2 (fun e => .Errorf e [])
    let r := agents.1.foldl agentStep r
    let r := r.logs (.Infoln "Fetching list of networks")
    let networks := env.ListNetworksV2 r.exporter.Client
    let r := r.calling .ListNetworksV2
    let r := r.logErr networks.2 (fun e => .Errorf "%s" [e])
    let r := r.logs (.Infoln "Fetching list of security groups")
    let securityGroups := env.ListSecurityGroupsV2 r.exporter.Client
    let r := r.calling .ListSecurityGroupsV2
    let r := r.logErr securityGroups.2 (fun e => .Errorf "%s" [e])
    let r := r.logs (.Infoln "Fetching list of subnets")
    let subnets := env.ListSubnetsV2 r.exporter.Client
    let r := r.calling .ListSubnetsV2
    let r := r.logErr subnets.2 (fun e => .Errorf "%s" [e])
    let r := r.send (MustNewConstMetric (lookupMetric r.exporter.Metrics "subnets")
      .GaugeValue subnets.1.length [])
    let r := r.send (MustNewConstMetric (lookupMetric r.exporter.Metrics "floating_ips")
      .GaugeValue floatingips.1.length [])
    let r := r.send (MustNewConstMetric (lookupMetric r.exporter.Metrics "networks")
      .GaugeValue networks.1.length [])
    r.send (MustNewConstMetric (lookupMetric r.exporter.Metrics "security_groups")
      .GaugeValue securityGroups.1.length [])

/-! ## Conditions on a scrape and the samples the spec describes -/

/-- The exporter holds the descriptors of the table: every name of
`defaultNeutronMetrics` is a key of the descriptor map, bound to the descriptor
with that name and the label names of the table.  This is the state of the map
after construction, and no method changes the map. -/
def Registered (metrics : List (String × Desc)) : Prop :=
  ∀ m ∈ defaultNeutronMetrics,
    lookupMetric metrics m.Name = some { name := m.Name, variableLabels := m.Labels }

instance instDecidableRegistered (metrics : List (String × Desc)) :
    Decidable (Registered metrics) := by
  unfold Registered; infer_instance

/-- The service client a scrape queries: the one `RefreshClient` builds from the
authenticating client as `Authenticate` leaves it. -/
def scrapeClient (env : Env) (exporter : NeutronExporter) : NeutronClient :=
  neutronNew (env.Authenticate exporter.AuthenticatingClient).1

/-- The `agent_state` sample as the spec words it: value 1 if alive else 0,
labels (host, binary, "up" if adminStateUp else "down"). -/
def specAgentSample (a : AgentV2) : ConstMetric :=
  { desc := { name := "agent_state", variableLabels := ["hostname", "service", "adminState"] },
    valType := .CounterValue,
    value := if a.Alive then 1 else 0,
    labelValues := [a.Host, a.Binary, if a.AdminStateUp then "up" else "down"] }

/-- The count sample as the spec words it: a gauge without labels whose value is
a count. -/
def specCountSample (name : String) (count : Nat) : ConstMetric :=
  { desc := { name := name, variableLabels := [] },
    valType := .GaugeValue,
    value := count,
    labelValues := [] }

/-- The log lines of `if err != nil { log ... }`. -/
def errEntries (err : Option String) (entry : String → LogEntry) : List LogEntry :=
  match err with
  | some e => [entry e]
  | none => []

/-- The five list responses a service client gets, in the order of the queries. -/
def listResponses (env : Env) (cl : NeutronClient) :
    (List FloatingIPV2 × Option String) × (List AgentV2 × Option String) ×
    (List NetworkV2 × Option String) × (List SecurityGroupV2 × Option String) ×
    (List SubnetV2 × Option String) :=
  (env.ListFloatingIPsV2 cl, env.ListAgentsV2 cl, env.ListNetworksV2 cl,
    env.ListSecurityGroupsV2 cl, env.ListSubnetsV2 cl)

/-- A list call has failed when its error is not nil. -/
def failed {α : Type} (res : List α × Option String) : Bool :=
  res.2.isSome

/-- The response is one a list call of the goose client gives: the list with a
nil error, or an error with the nil slice. -/
def NilOnError {α : Type} (res : List α × Option String) : Prop :=
  failed res = true → res.1 = []

instance instDecidableNilOnError {α : Type} [DecidableEq α] (res : List α × Option String) :
    Decidable (NilOnError res) := by
  unfold NilOnError; infer_instance

/-- The response of a list call, with a failure replaced by success with an
empty list. -/
def recovered {α : Type} (res : List α × Option String) : List α × Option String :=
  if failed res then ([], none) else res

/-- The environment in which every failed list query succeeds with an empty
list instead; authentication is untouched. -/
def Env.failuresAsEmpty (env : Env) : Env :=
  { Authenticate := env.Authenticate,
    ListFloatingIPsV2 := fun cl => recovered (env.ListFloatingIPsV2 cl),
    ListAgentsV2 := fun cl => recovered (env.ListAgentsV2 cl),
    ListNetworksV2 := fun cl => recovered (env.ListNetworksV2 cl),
    ListSecurityGroupsV2 := fun cl => recovered (env.ListSecurityGroupsV2 cl),
    ListSubnetsV2 := fun cl => recovered (env.ListSubnetsV2 cl) }

/-- The exporter a scrape meets: built by `NewNeutronExporter` from the given
arguments and then taken through the earlier scrapes, `history` giving the
environment of each, oldest first. -/
def exporterAfter (client : AuthenticatingClient) (pfx : String) (config : Cloud)
    (history : List Env) : NeutronExporter :=
  history.foldl (fun e env => (Collect env e).exporter) (NewNeutronExporter client pfx config).1

/-! ## Concrete scrapes -/

/-- An exporter fresh from the constructor. -/
def freshExporter : NeutronExporter :=
  exporterAfter { session := "s0" } "openstack" { settings := [] } []

/-- The two agents of the spec's example. -/
def twoAgents : List AgentV2 :=
  [ { Host := "h1", Binary := "b1", Alive := true, AdminStateUp := true },
    { Host := "h2", Binary := "b2", Alive := false, AdminStateUp := false } ]

/-- An environment in which everything succeeds: three floating IPs, two
agents, no network, five security groups, two subnets. -/
def calmEnv : Env :=
  { Authenticate := fun _ => ({ session := "s1" }, none),
    ListFloatingIPsV2 := fun _ => ([⟨"f1"⟩, ⟨"f2"⟩, ⟨"f3"⟩], none),
    ListAgentsV2 := fun _ => (twoAgents, none),
    ListNetworksV2 := fun _ => ([], none),
    ListSecurityGroupsV2 := fun _ => ([⟨"g1"⟩, ⟨"g2"⟩, ⟨"g3"⟩, ⟨"g4"⟩, ⟨"g5"⟩], none),
    ListSubnetsV2 := fun _ => ([⟨"u1"⟩, ⟨"u2"⟩], none) }

/-- As `calmEnv`, with an agent list that names the first agent a second time. -/
def repeatedAgentEnv : Env :=
  { calmEnv with ListAgentsV2 := fun _ => (twoAgents ++ twoAgents.take 1, none) }

/-- As `calmEnv`, with a networks query that fails the way the client library
fails: an error and no items. -/
def networksDownEnv : Env :=
  { calmEnv with ListNetworksV2 := fun _ => ([], some "failed to get list of networks") }

/-- As `calmEnv`, with an identity layer that rejects the credentials. -/
def deniedEnv : Env :=
  { calmEnv with Authenticate := fun c => (c, some "401 Unauthorized") }

/-! ## Lemmas on runs -/

theorem registered_lookups {metrics : List (String × Desc)} (h : Registered metrics) :
    lookupMetric metrics "floating_ips" = some { name := "floating_ips", variableLabels := [] } ∧
    lookupMetric metrics "networks" = some { name := "networks", variableLabels := [] } ∧
    lookupMetric metrics "security_groups" =
      some { name := "security_groups", variableLabels := [] } ∧
    lookupMetric metrics "subnets" = some { name := "subnets", variableLabels := [] } ∧
    lookupMetric metrics "agent_state" =
      some { name := "agent_state", variableLabels := ["hostname", "service", "adminState"] } := by
  simpa [Registered, defaultNeutronMetrics] using h

theorem logs_eq (r : Run) (entry : LogEntry) (hp : r.panicked = false) :
    r.logs entry = { r with log := r.log ++ [entry] } := by
  simp [Run.logs, hp]

theorem logErr_eq (r : Run) (err : Option String) (entry : String → LogEntry)
    (hp : r.panicked = false) :
    r.logErr err entry = { r with log := r.log ++ errEntries err entry } := by
  cases r; cases err <;> simp_all [Run.logErr, errEntries, Run.logs]

theorem calling_eq (r : Run) (c : Call) (hp : r.panicked = false) :
    r.calling c = { r with calls := r.calls ++ [c] } := by
  simp [Run.calling, hp]

theorem send_eq (r : Run) (d : Desc) (valType : ValueType) (value : Nat)
    (labelValues : List String) (hp : r.panicked = false)
    (hl : d.variableLabels.length = labelValues.length) :
    r.send (MustNewConstMetric (some d) valType value labelValues) =
      { r with sent := r.sent ++
          [{ desc := d, valType := valType, value := value, labelValues := labelValues }] } := by
  simp [Run.send, MustNewConstMetric, hp, hl]

/-- The loop over the agents, when the `agent_state` descriptor is registered:
one sample per agent, appended in the order of the list. -/
theorem foldl_agentStep (agents : List AgentV2) (r : Run)
    (hd : lookupMetric r.exporter.Metrics "agent_state" =
      some { name := "agent_state", variableLabels := ["hostname", "service", "adminState"] })
    (hp : r.panicked = false) :
    agents.foldl agentStep r = { r with sent := r.sent ++ agents.map specAgentSample } := by
  induction agents generalizing r with
  | nil => simp
  | cons a rest ih =>
    have hstep : agentStep r a = { r with sent := r.sent ++ [specAgentSample a] } := by
      simp [agentStep, hd, hp, Run.send, MustNewConstMetric, specAgentSample]
    rw [List.foldl_cons, hstep, ih _ (by simpa using hd) (by simpa using hp)]
    simp

/-- Closed form of a scrape whose authentication succeeds, on an exporter that
holds the descriptors of the table. -/
theorem Collect_of_auth_ok (env : Env) (e : NeutronExporter)
    (hreg : Registered e.Metrics)
    (hauth : (env.Authenticate e.AuthenticatingClient).2 = none) :
    Collect env e =
      { exporter :=
          { e with AuthenticatingClient := (env.Authenticate e.AuthenticatingClient).1,
                   Client := scrapeClient env e },
        sent :=
          (env.ListAgentsV2 (scrapeClient env e)).1.map specAgentSample ++
            [ specCountSample "subnets" (env.ListSubnetsV2 (scrapeClient env e)).1.length,
              specCountSample "floating_ips" (env.ListFloatingIPsV2 (scrapeClient env e)).1.length,
              specCountSample "networks" (env.ListNetworksV2 (scrapeClient env e)).1.length,
              specCountSample "security_groups"
                (env.ListSecurityGroupsV2 (scrapeClient env e)).1.length ],
        calls :=
          [.Authenticate, .ListFloatingIPsV2, .ListAgentsV2, .ListNetworksV2,
            .ListSecurityGroupsV2, .ListSubnetsV2],
        log :=
          [.Infoln "Refreshing auth client in case token has expired",
            .Infoln "Fetching floating ips list"] ++
          errEntries (env.ListFloatingIPsV2 (scrapeClient env e)).2 (fun err => .Errorf "%s" [err]) ++
          [.Infoln "Fetching agents list"] ++
          errEntries (env.ListAgentsV2 (scrapeClient env e)).2 (fun err => .Errorf err []) ++
          [.Infoln "Fetching list of networks"] ++
          errEntries (env.ListNetworksV2 (scrapeClient env e)).2 (fun err => .Errorf "%s" [err]) ++
          [.Infoln "Fetching list of security groups"] ++
          errEntries (env.ListSecurityGroupsV2 (scrapeClient env e)).2
            (fun err => .Errorf "%s" [err]) ++
          [.Infoln "Fetching list of subnets"] ++
          errEntries (env.ListSubnetsV2 (scrapeClient env e)).2 (fun err => .Errorf "%s" [err]),
        panicked := false } := by
  obtain ⟨h1, h2, h3, h4, h5⟩ := registered_lookups hreg
  simp [Collect, RefreshClient, hauth, Run.start, logs_eq, calling_eq, logErr_eq, send_eq,
    foldl_agentStep, h1, h2, h3, h4, h5, scrapeClient, specCountSample]

/-- Closed form of a scrape whose authentication fails, on any exporter. -/
theorem Collect_of_auth_failed (env : Env) (e : NeutronExporter) (err : String)
    (hauth : (env.Authenticate e.AuthenticatingClient).2 = some err) :
    Collect env e =
      { exporter := { e with AuthenticatingClient := (env.Authenticate e.AuthenticatingClient).1 },
        sent := [],
        calls := [.Authenticate],
        log := [.Infoln "Refreshing auth client in case token has expired",
                .Error ("Error authenticating neutron client: " ++ err)],
        panicked := false } := by
  simp [Collect, RefreshClient, hauth, Run.start, logs_eq, calling_eq]

/-- The samples of a successful scrape, as a list. -/
theorem sent_of_auth_ok (env : Env) (e : NeutronExporter)
    (hreg : Registered e.Metrics)
    (hauth : (env.Authenticate e.AuthenticatingClient).2 = none) :
    (Collect env e).sent =
      (env.ListAgentsV2 (scrapeClient env e)).1.map specAgentSample ++
        [ specCountSample "subnets" (env.ListSubnetsV2 (scrapeClient env e)).1.length,
          specCountSample "floating_ips" (env.ListFloatingIPsV2 (scrapeClient env e)).1.length,
          specCountSample "networks" (env.ListNetworksV2 (scrapeClient env e)).1.length,
          specCountSample "security_groups"
            (env.ListSecurityGroupsV2 (scrapeClient env e)).1.length ] := by
  rw [Collect_of_auth_ok env e hreg hauth]

/-- The constructor leaves the descriptors of the table in the map. -/
theorem NewNeutronExporter_registered (client : AuthenticatingClient) (pfx : String)
    (config : Cloud) : Registered (NewNeutronExporter client pfx config).1.Metrics := by
  simp [Registered, NewNeutronExporter, defaultNeutronMetrics, BaseOpenStackExporter.AddMetric,
    lookupMetric]

/-- A scrape leaves the descriptor map as it found it. -/
theorem Collect_metrics (env : Env) (e : NeutronExporter) (hreg : Registered e.Metrics) :
    (Collect env e).exporter.Metrics = e.Metrics := by
  cases hauth : (env.Authenticate e.AuthenticatingClient).2 with
  | none => rw [Collect_of_auth_ok env e hreg hauth]
  | some err => rw [Collect_of_auth_failed env e err hauth]

/-- No sample of an agent passes a filter on the name of a count metric. -/
theorem filter_agents_other (agents : List AgentV2) (name : String)
    (hname : name ≠ "agent_state") :
    (agents.map specAgentSample).filter (fun s => s.desc.name = name) = [] := by
  rw [List.filter_eq_nil_iff]
  intro s hs
  obtain ⟨a, _, rfl⟩ := List.mem_map.mp hs
  simpa [specAgentSample] using fun h => hname h.symm

/-- Every sample of an agent passes the filter on `agent_state`. -/
theorem filter_agents_self (agents : List AgentV2) :
    (agents.map specAgentSample).filter (fun s => s.desc.name = "agent_state") =
      agents.map specAgentSample := by
  rw [List.filter_eq_self]
  intro s hs
  obtain ⟨a, _, rfl⟩ := List.mem_map.mp hs
  simp [specAgentSample]


/-- Under `NilOnError`, replacing a failure by an empty success keeps the items. -/
theorem recovered_items {α : Type} (res : List α × Option String) (h : NilOnError res) :
    (recovered res).1 = res.1 := by
  unfold recovered
  split
  · next hf => simp [h hf]
  · rfl

/-- Under `NilOnError`, the items of a failed call are none. -/
theorem items_of_nilOnError {α : Type} (res : List α × Option String) (h : NilOnError res) :
    res.1 = if failed res then [] else res.1 := by
  split
  · next hf => exact h hf
  · rfl

/-- When authentication succeeds, `RefreshClient` overwrites the service client:
the run after it does not depend on the client the exporter held before. -/
theorem RefreshClient_forgets_client (env : Env) (e : NeutronExporter) (cl : NeutronClient)
    (hauth : (env.Authenticate e.AuthenticatingClient).2 = none) :
    RefreshClient env (Run.start { e with Client := cl }) = RefreshClient env (Run.start e) := by
  simp [RefreshClient, hauth, Run.start, logs_eq, calling_eq]

/-- Scrapes leave the descriptor map as it is. -/
theorem foldl_scrapes_metrics (history : List Env) (e : NeutronExporter)
    (hreg : Registered e.Metrics) :
    (history.foldl (fun e env => (Collect env e).exporter) e).Metrics = e.Metrics := by
  induction history generalizing e with
  | nil => rfl
  | cons env rest ih =>
    have hm := Collect_metrics env e hreg
    rw [List.foldl_cons, ih _ (by rw [hm]; exact hreg), hm]

/-- A constructed exporter has the descriptor map of the constructor, whatever
scrapes it has been through. -/
theorem exporterAfter_metrics (client : AuthenticatingClient) (pfx : String) (config : Cloud)
    (history : List Env) :
    (exporterAfter client pfx config history).Metrics =
      (NewNeutronExporter client pfx config).1.Metrics :=
  foldl_scrapes_metrics history _ (NewNeutronExporter_registered client pfx config)

/-- A constructed exporter holds the descriptors of the table. -/
theorem exporterAfter_registered (client : AuthenticatingClient) (pfx : String) (config : Cloud)
    (history : List Env) : Registered (exporterAfter client pfx config history).Metrics := by
  rw [exporterAfter_metrics]
  exact NewNeutronExporter_registered client pfx config

/-- The samples of a scrape do not depend on the service client the exporter
holds when the scrape begins. -/
theorem sent_forgets_client (env : Env) (e : NeutronExporter) (cl : NeutronClient) :
    (Collect env { e with Client := cl }).sent = (Collect env e).sent := by
  cases h1 : (env.Authenticate e.AuthenticatingClient).2 with
  | some err =>
    rw [Collect_of_auth_failed env { e with Client := cl } err h1,
      Collect_of_auth_failed env e err h1]
  | none =>
    unfold Collect
    rw [RefreshClient_forgets_client env e cl h1]

/-! ## Properties of the exporter

Every scrape below is a call of `Collect` on `exporterAfter client pfx config
history`: an exporter built by the constructor that may have been through
earlier scrapes. -/

/-- C1: in a scrape whose authentication succeeds and whose agent query returns
the list `agents`, the `agent_state` samples that `Collect` emits are, in the
order of the list and without sorting or deduplication, one per agent: value 1
if the agent is alive else 0, label values host, binary and "up" if
adminStateUp else "down"; in particular there are as many as agents. -/
theorem agent_state_samples_follow_agents (client : AuthenticatingClient) (pfx : String)
    (config : Cloud) (history : List Env) (env : Env) (agents : List AgentV2)
    (hauth : (env.Authenticate
      (exporterAfter client pfx config history).AuthenticatingClient).2 = none)
    (hagents : (env.ListAgentsV2
      (scrapeClient env (exporterAfter client pfx config history))).1 = agents) :
    (Collect env (exporterAfter client pfx config history)).sent.filter
        (fun s => s.desc.name = "agent_state") =
      agents.map (fun a =>
        { desc := { name := "agent_state",
                    variableLabels := ["hostname", "service", "adminState"] },
          valType := .CounterValue,
          value := if a.Alive then 1 else 0,
          labelValues := [a.Host, a.Binary, if a.AdminStateUp then "up" else "down"] }) ∧
    ((Collect env (exporterAfter client pfx config history)).sent.filter
        (fun s => s.desc.name = "agent_state")).length = agents.length := by
  have hsent := sent_of_auth_ok env _ (exporterAfter_registered client pfx config history) hauth
  have hmap : (Collect env (exporterAfter client pfx config history)).sent.filter
      (fun s => s.desc.name = "agent_state") = agents.map specAgentSample := by
    rw [hsent, hagents, List.filter_append, filter_agents_self]
    simp [specCountSample]
  refine ⟨?_, ?_⟩
  · rw [hmap]; rfl
  · rw [hmap, List.length_map]

/-- Witness of C1: the two agents of the spec's example, the first of them
listed a second time. -/
theorem agent_state_samples_follow_agents_witness :
    (repeatedAgentEnv.Authenticate
      (exporterAfter { session := "s0" } "openstack" { settings := [] }
        []).AuthenticatingClient).2 = none ∧
    (repeatedAgentEnv.ListAgentsV2
      (scrapeClient repeatedAgentEnv
        (exporterAfter { session := "s0" } "openstack" { settings := [] } []))).1 =
      twoAgents ++ twoAgents.take 1 ∧
    (Collect repeatedAgentEnv
        (exporterAfter { session := "s0" } "openstack" { settings := [] } [])).sent.filter
        (fun s => s.desc.name = "agent_state") =
      [ { desc := { name := "agent_state",
                    variableLabels := ["hostname", "service", "adminState"] },
          valType := .CounterValue, value := 1, labelValues := ["h1", "b1", "up"] },
        { desc := { name := "agent_state",
                    variableLabels := ["hostname", "service", "adminState"] },
          valType := .CounterValue, value := 0, labelValues := ["h2", "b2", "down"] },
        { desc := { name := "agent_state",
                    variableLabels := ["hostname", "service", "adminState"] },
          valType := .CounterValue, value := 1, labelValues := ["h1", "b1", "up"] } ] :=
  ⟨by decide, rfl,
    (agent_state_samples_follow_agents { session := "s0" } "openstack" { settings := [] } []
      repeatedAgentEnv (twoAgents ++ twoAgents.take 1) (by decide) rfl).1⟩

/-- C2: in a scrape whose authentication succeeds, `Collect` emits exactly one
sample for each of floating_ips, networks, security_groups and subnets: a gauge
without labels whose value is the length of the list that the metric's own
query returned, whatever the items are.  This holds when all four count queries
succeed, and also when a query hands back an error next to its list. -/
theorem count_samples_are_list_lengths (client : AuthenticatingClient) (pfx : String)
    (config : Cloud) (history : List Env) (env : Env)
    (hauth : (env.Authenticate
      (exporterAfter client pfx config history).AuthenticatingClient).2 = none) :
    (Collect env (exporterAfter client pfx config history)).sent.filter
        (fun s => s.desc.name = "floating_ips") =
      [ { desc := { name := "floating_ips", variableLabels := [] }, valType := .GaugeValue,
          value := (env.ListFloatingIPsV2
            (scrapeClient env (exporterAfter client pfx config history))).1.length,
          labelValues := [] } ] ∧
    (Collect env (exporterAfter client pfx config history)).sent.filter
        (fun s => s.desc.name = "networks") =
      [ { desc := { name := "networks", variableLabels := [] }, valType := .GaugeValue,
          value := (env.ListNetworksV2
            (scrapeClient env (exporterAfter client pfx config history))).1.length,
          labelValues := [] } ] ∧
    (Collect env (exporterAfter client pfx config history)).sent.filter
        (fun s => s.desc.name = "security_groups") =
      [ { desc := { name := "security_groups", variableLabels := [] }, valType := .GaugeValue,
          value := (env.ListSecurityGroupsV2
            (scrapeClient env (exporterAfter client pfx config history))).1.length,
          labelValues := [] } ] ∧
    (Collect env (exporterAfter client pfx config history)).sent.filter
        (fun s => s.desc.name = "subnets") =
      [ { desc := { name := "subnets", variableLabels := [] }, valType := .GaugeValue,
          value := (env.ListSubnetsV2
            (scrapeClient env (exporterAfter client pfx config history))).1.length,
          labelValues := [] } ] := by
  have hsent := sent_of_auth_ok env _ (exporterAfter_registered client pfx config history) hauth
  refine ⟨?_, ?_, ?_, ?_⟩ <;>
    · rw [hsent, List.filter_append, filter_agents_other _ _ (by decide)]
      simp [specCountSample]

/-- Witness of C2: the spec's example, lists of lengths 3, 0, 5 and 2, on an
exporter that has been through one scrape already. -/
theorem count_samples_are_list_lengths_witness :
    (calmEnv.Authenticate
      (exporterAfter { session := "s0" } "openstack" { settings := [] }
        [deniedEnv]).AuthenticatingClient).2 = none ∧
    (Collect calmEnv
        (exporterAfter { session := "s0" } "openstack" { settings := [] }
          [deniedEnv])).sent.filter (fun s => s.desc.name = "floating_ips") =
      [ { desc := { name := "floating_ips", variableLabels := [] }, valType := .GaugeValue,
          value := 3, labelValues := [] } ] ∧
    (Collect calmEnv
        (exporterAfter { session := "s0" } "openstack" { settings := [] }
          [deniedEnv])).sent.filter (fun s => s.desc.name = "networks") =
      [ { desc := { name := "networks", variableLabels := [] }, valType := .GaugeValue,
          value := 0, labelValues := [] } ] ∧
    (Collect calmEnv
        (exporterAfter { session := "s0" } "openstack" { settings := [] }
          [deniedEnv])).sent.filter (fun s => s.desc.name = "security_groups") =
      [ { desc := { name := "security_groups", variableLabels := [] }, valType := .GaugeValue,
          value := 5, labelValues := [] } ] ∧
    (Collect calmEnv
        (exporterAfter { session := "s0" } "openstack" { settings := [] }
          [deniedEnv])).sent.filter (fun s => s.desc.name = "subnets") =
      [ { desc := { name := "subnets", variableLabels := [] }, valType := .GaugeValue,
          value := 2, labelValues := [] } ] :=
  ⟨by decide,
    count_samples_are_list_lengths { session := "s0" } "openstack" { settings := [] }
      [deniedEnv] calmEnv (by decide)⟩

/-- C3: for every exporter state and all list responses, when `Authenticate`
returns an error `Collect` writes no sample at all to the channel, issues no
list query, and returns normally: the error ends in the log and nowhere else. -/
theorem auth_failure_emits_nothing (env : Env) (e : NeutronExporter) (err : String)
    (hauth : (env.Authenticate e.AuthenticatingClient).2 = some err) :
    (Collect env e).sent = [] ∧
    (Collect env e).panicked = false ∧
    (Collect env e).calls = [.Authenticate] ∧
    (Collect env e).log =
      [ .Infoln "Refreshing auth client in case token has expired",
        .Error ("Error authenticating neutron client: " ++ err) ] := by
  rw [Collect_of_auth_failed env e err hauth]
  simp

/-- Witness of C3: rejected credentials, on an exporter without any descriptor. -/
theorem auth_failure_emits_nothing_witness :
    (deniedEnv.Authenticate
        ({ freshExporter with Metrics := [] } : NeutronExporter).AuthenticatingClient).2 =
      some "401 Unauthorized" ∧
    (Collect deniedEnv { freshExporter with Metrics := [] }).sent = [] ∧
    (Collect deniedEnv { freshExporter with Metrics := [] }).panicked = false :=
  ⟨rfl,
    (auth_failure_emits_nothing deniedEnv { freshExporter with Metrics := [] }
      "401 Unauthorized" rfl).1,
    (auth_failure_emits_nothing deniedEnv { freshExporter with Metrics := [] }
      "401 Unauthorized" rfl).2.1⟩

/-- C4: in a scrape whose authentication succeeds, whichever of the five list
queries fail, `Collect` emits the samples it would emit if each failed query had
succeeded with an empty list: no agent_state sample for a failed agent query,
value 0 for the metric of a failed count query, and for every query that did
not fail the samples of its own list, untouched by the failures of the others.
A failed query is one that answers as the list calls of the goose client do,
with its error and the nil slice (`NilOnError`); `Collect` logs the error and
goes on with that slice. -/
theorem failed_queries_count_as_empty (client : AuthenticatingClient) (pfx : String)
    (config : Cloud) (history : List Env) (env : Env)
    (hauth : (env.Authenticate
      (exporterAfter client pfx config history).AuthenticatingClient).2 = none)
    (hfips : NilOnError (env.ListFloatingIPsV2
      (scrapeClient env (exporterAfter client pfx config history))))
    (hagents : NilOnError (env.ListAgentsV2
      (scrapeClient env (exporterAfter client pfx config history))))
    (hnets : NilOnError (env.ListNetworksV2
      (scrapeClient env (exporterAfter client pfx config history))))
    (hgroups : NilOnError (env.ListSecurityGroupsV2
      (scrapeClient env (exporterAfter client pfx config history))))
    (hsubnets : NilOnError (env.ListSubnetsV2
      (scrapeClient env (exporterAfter client pfx config history)))) :
    (Collect env (exporterAfter client pfx config history)).sent =
      (Collect env.failuresAsEmpty (exporterAfter client pfx config history)).sent ∧
    (Collect env (exporterAfter client pfx config history)).sent =
      (if failed (env.ListAgentsV2
            (scrapeClient env (exporterAfter client pfx config history))) then []
        else (env.ListAgentsV2
            (scrapeClient env (exporterAfter client pfx config history))).1.map
          specAgentSample) ++
      [ specCountSample "subnets"
          (if failed (env.ListSubnetsV2
              (scrapeClient env (exporterAfter client pfx config history))) then 0
            else (env.ListSubnetsV2
              (scrapeClient env (exporterAfter client pfx config history))).1.length),
        specCountSample "floating_ips"
          (if failed (env.ListFloatingIPsV2
              (scrapeClient env (exporterAfter client pfx config history))) then 0
            else (env.ListFloatingIPsV2
              (scrapeClient env (exporterAfter client pfx config history))).1.length),
        specCountSample "networks"
          (if failed (env.ListNetworksV2
              (scrapeClient env (exporterAfter client pfx config history))) then 0
            else (env.ListNetworksV2
              (scrapeClient env (exporterAfter client pfx config history))).1.length),
        specCountSample "security_groups"
          (if failed (env.ListSecurityGroupsV2
              (scrapeClient env (exporterAfter client pfx config history))) then 0
            else (env.ListSecurityGroupsV2
              (scrapeClient env (exporterAfter client pfx config history))).1.length) ] := by
  have hreg := exporterAfter_registered client pfx config history
  have hauth2 : (env.failuresAsEmpty.Authenticate
      (exporterAfter client pfx config history).AuthenticatingClient).2 = none := hauth
  have hcl : scrapeClient env.failuresAsEmpty (exporterAfter client pfx config history) =
      scrapeClient env (exporterAfter client pfx config history) := rfl
  refine ⟨?_, ?_⟩
  · rw [sent_of_auth_ok env _ hreg hauth, sent_of_auth_ok env.failuresAsEmpty _ hreg hauth2, hcl]
    simp only [Env.failuresAsEmpty, recovered_items _ hfips, recovered_items _ hagents,
      recovered_items _ hnets, recovered_items _ hgroups, recovered_items _ hsubnets]
  · rw [sent_of_auth_ok env _ hreg hauth]
    conv_lhs =>
      rw [items_of_nilOnError _ hfips, items_of_nilOnError _ hagents,
        items_of_nilOnError _ hnets, items_of_nilOnError _ hgroups,
        items_of_nilOnError _ hsubnets]
    congr 1
    · split <;> simp
    · congr 1
      · split <;> simp
      · congr 1
        · split <;> simp
        · congr 1
          · split <;> simp
          · congr 1
            split <;> simp

/-- Witness of C4: the networks query fails, the other queries succeed. -/
theorem failed_queries_count_as_empty_witness :
    (networksDownEnv.Authenticate
      (exporterAfter { session := "s0" } "openstack" { settings := [] }
        []).AuthenticatingClient).2 = none ∧
    failed (networksDownEnv.ListNetworksV2
      (scrapeClient networksDownEnv
        (exporterAfter { session := "s0" } "openstack" { settings := [] } []))) = true ∧
    NilOnError (networksDownEnv.ListNetworksV2
      (scrapeClient networksDownEnv
        (exporterAfter { session := "s0" } "openstack" { settings := [] } []))) ∧
    (Collect networksDownEnv
        (exporterAfter { session := "s0" } "openstack" { settings := [] } [])).sent =
      (Collect networksDownEnv.failuresAsEmpty
        (exporterAfter { session := "s0" } "openstack" { settings := [] } [])).sent ∧
    (Collect networksDownEnv
        (exporterAfter { session := "s0" } "openstack" { settings := [] } [])).sent =
      [ specAgentSample { Host := "h1", Binary := "b1", Alive := true, AdminStateUp := true },
        specAgentSample { Host := "h2", Binary := "b2", Alive := false, AdminStateUp := false },
        specCountSample "subnets" 2,
        specCountSample "floating_ips" 3,
        specCountSample "networks" 0,
        specCountSample "security_groups" 5 ] :=
  ⟨by decide, by decide, by decide,
    (failed_queries_count_as_empty { session := "s0" } "openstack" { settings := [] } []
      networksDownEnv (by decide) (by decide) (by decide) (by decide) (by decide)
      (by decide)).1,
    (failed_queries_count_as_empty { session := "s0" } "openstack" { settings := [] } []
      networksDownEnv (by decide) (by decide) (by decide) (by decide) (by decide)
      (by decide)).2⟩

/-- C5: in a scrape whose authentication succeeds, with `n` agents returned, the
samples that `Collect` emits are the `n` agent_state samples followed by the
count samples of subnets, floating_ips, networks and security_groups, in that
order: `n + 4` samples. -/
theorem samples_are_agents_then_four_counts (client : AuthenticatingClient) (pfx : String)
    (config : Cloud) (history : List Env) (env : Env)
    (hauth : (env.Authenticate
      (exporterAfter client pfx config history).AuthenticatingClient).2 = none) :
    (Collect env (exporterAfter client pfx config history)).sent =
      (env.ListAgentsV2 (scrapeClient env (exporterAfter client pfx config history))).1.map
          specAgentSample ++
        [ specCountSample "subnets" (env.ListSubnetsV2
            (scrapeClient env (exporterAfter client pfx config history))).1.length,
          specCountSample "floating_ips" (env.ListFloatingIPsV2
            (scrapeClient env (exporterAfter client pfx config history))).1.length,
          specCountSample "networks" (env.ListNetworksV2
            (scrapeClient env (exporterAfter client pfx config history))).1.length,
          specCountSample "security_groups" (env.ListSecurityGroupsV2
            (scrapeClient env (exporterAfter client pfx config history))).1.length ] ∧
    (Collect env (exporterAfter client pfx config history)).sent.length =
      (env.ListAgentsV2
        (scrapeClient env (exporterAfter client pfx config history))).1.length + 4 := by
  rw [Collect_of_auth_ok env _ (exporterAfter_registered client pfx config history) hauth]
  simp

/-- Witness of C5: two agents, six samples. -/
theorem samples_are_agents_then_four_counts_witness :
    (calmEnv.Authenticate
      (exporterAfter { session := "s0" } "openstack" { settings := [] }
        []).AuthenticatingClient).2 = none ∧
    (Collect calmEnv
        (exporterAfter { session := "s0" } "openstack" { settings := [] } [])).sent =
      [ specAgentSample { Host := "h1", Binary := "b1", Alive := true, AdminStateUp := true },
        specAgentSample { Host := "h2", Binary := "b2", Alive := false, AdminStateUp := false },
        specCountSample "subnets" 2,
        specCountSample "floating_ips" 3,
        specCountSample "networks" 0,
        specCountSample "security_groups" 5 ] ∧
    (Collect calmEnv
        (exporterAfter { session := "s0" } "openstack" { settings := [] } [])).sent.length =
      2 + 4 :=
  ⟨by decide,
    samples_are_agents_then_four_counts { session := "s0" } "openstack" { settings := [] } []
      calmEnv (by decide)⟩

/-- C6: construction registers exactly five descriptors, under the pairwise
distinct names floating_ips, networks, security_groups, subnets and
agent_state; the first four have no label names and agent_state has the label
names hostname, service, adminState, in that order. -/
theorem constructor_registers_five_descriptors (client : AuthenticatingClient) (pfx : String)
    (config : Cloud) :
    (NewNeutronExporter client pfx config).1.Metrics.length = 5 ∧
    ((NewNeutronExporter client pfx config).1.Metrics.map Prod.fst).Nodup ∧
    lookupMetric (NewNeutronExporter client pfx config).1.Metrics "floating_ips" =
      some { name := "floating_ips", variableLabels := [] } ∧
    lookupMetric (NewNeutronExporter client pfx config).1.Metrics "networks" =
      some { name := "networks", variableLabels := [] } ∧
    lookupMetric (NewNeutronExporter client pfx config).1.Metrics "security_groups" =
      some { name := "security_groups", variableLabels := [] } ∧
    lookupMetric (NewNeutronExporter client pfx config).1.Metrics "subnets" =
      some { name := "subnets", variableLabels := [] } ∧
    lookupMetric (NewNeutronExporter client pfx config).1.Metrics "agent_state" =
      some { name := "agent_state", variableLabels := ["hostname", "service", "adminState"] } := by
  simp [NewNeutronExporter, defaultNeutronMetrics, BaseOpenStackExporter.AddMetric, lookupMetric]

/-- C7, as amended: `NewNeutronExporter` never fails; for every client, prefix
and config it returns the exporter together with a nil error. -/
theorem constructor_returns_nil_error (client : AuthenticatingClient) (pfx : String)
    (config : Cloud) :
    (NewNeutronExporter client pfx config).2 = none := by
  simp [NewNeutronExporter]

/-- C7 as stated fails: a construction whose five names have all been used by
an earlier construction returns a nil error all the same. -/
theorem constructor_conflict_not_reported :
    (∀ m ∈ defaultNeutronMetrics,
      m.Name ∈ (NewNeutronExporter { session := "s0" } "openstack"
        { settings := [] }).1.Metrics.map Prod.fst) ∧
    (NewNeutronExporter { session := "s1" } "openstack" { settings := [] }).2 = none := by
  decide

/-- C8: every sample that `Collect` emits, whatever the environment answers,
carries a descriptor that the constructor registered under one of the five
names of the table, and as many label values as that descriptor has label names
(3 for agent_state, 0 for the count metrics); `Collect` does not abort and
leaves the descriptor map as the constructor made it. -/
theorem emitted_samples_match_descriptors (client : AuthenticatingClient) (pfx : String)
    (config : Cloud) (history : List Env) (env : Env) :
    (∀ s ∈ (Collect env (exporterAfter client pfx config history)).sent,
      ∃ m ∈ defaultNeutronMetrics,
        s.desc.name = m.Name ∧
        lookupMetric (NewNeutronExporter client pfx config).1.Metrics m.Name = some s.desc ∧
        s.desc.variableLabels = m.Labels ∧
        s.labelValues.length = s.desc.variableLabels.length) ∧
    (∀ s ∈ (Collect env (exporterAfter client pfx config history)).sent,
        s.labelValues.length = if s.desc.name = "agent_state" then 3 else 0) ∧
    (Collect env (exporterAfter client pfx config history)).exporter.Metrics =
      (NewNeutronExporter client pfx config).1.Metrics ∧
    (Collect env (exporterAfter client pfx config history)).panicked = false := by
  have hreg := exporterAfter_registered client pfx config history
  have hmet := exporterAfter_metrics client pfx config history
  obtain ⟨h1, h2, h3, h4, h5⟩ :=
    registered_lookups (NewNeutronExporter_registered client pfx config)
  cases hauth : (env.Authenticate
      (exporterAfter client pfx config history).AuthenticatingClient).2 with
  | some err =>
    rw [Collect_of_auth_failed env _ err hauth]
    simp [hmet]
  | none =>
    rw [Collect_of_auth_ok env _ hreg hauth]
    refine ⟨?_, ?_, hmet, rfl⟩
    · intro s hs
      simp only [List.mem_append, List.mem_map, List.mem_cons, List.mem_singleton,
        List.not_mem_nil, or_false] at hs
      rcases hs with ⟨a, _, rfl⟩ | rfl | rfl | rfl | rfl
      · exact ⟨⟨"agent_state", ["hostname", "service", "adminState"]⟩,
          by simp [defaultNeutronMetrics], by simp [specAgentSample, h5]⟩
      · exact ⟨⟨"subnets", []⟩, by simp [defaultNeutronMetrics], by simp [specCountSample, h4]⟩
      · exact ⟨⟨"floating_ips", []⟩, by simp [defaultNeutronMetrics],
          by simp [specCountSample, h1]⟩
      · exact ⟨⟨"networks", []⟩, by simp [defaultNeutronMetrics], by simp [specCountSample, h2]⟩
      · exact ⟨⟨"security_groups", []⟩, by simp [defaultNeutronMetrics],
          by simp [specCountSample, h3]⟩
    · intro s hs
      simp only [List.mem_append, List.mem_map, List.mem_cons, List.mem_singleton,
        List.not_mem_nil, or_false] at hs
      rcases hs with ⟨a, _, rfl⟩ | rfl | rfl | rfl | rfl <;>
        simp [specAgentSample, specCountSample]

/-- C9: two calls of `Collect` in succession on the same exporter, the second
one getting the authentication result and the five list responses that the
first one got, emit the same sequence of samples; and the samples of the second
call do not depend on the service client that the first call left in the
exporter. -/
theorem second_scrape_repeats_first (client : AuthenticatingClient) (pfx : String)
    (config : Cloud) (history : List Env) (env1 env2 : Env)
    (hauth : (env2.Authenticate
        (Collect env1 (exporterAfter client pfx config history)).exporter.AuthenticatingClient).2 =
      (env1.Authenticate (exporterAfter client pfx config history).AuthenticatingClient).2)
    (hlists : listResponses env2
        (scrapeClient env2 (Collect env1 (exporterAfter client pfx config history)).exporter) =
      listResponses env1 (scrapeClient env1 (exporterAfter client pfx config history))) :
    (Collect env2 (Collect env1 (exporterAfter client pfx config history)).exporter).sent =
      (Collect env1 (exporterAfter client pfx config history)).sent ∧
    ∀ cl : NeutronClient,
      (Collect env2
        { (Collect env1 (exporterAfter client pfx config history)).exporter with
          Client := cl }).sent =
      (Collect env2 (Collect env1 (exporterAfter client pfx config history)).exporter).sent := by
  have hreg := exporterAfter_registered client pfx config history
  have hreg1 : Registered
      (Collect env1 (exporterAfter client pfx config history)).exporter.Metrics := by
    rw [Collect_metrics env1 _ hreg]; exact hreg
  simp only [listResponses, Prod.mk.injEq] at hlists
  obtain ⟨hf, ha, hn, hg, hs⟩ := hlists
  refine ⟨?_, ?_⟩
  · cases h1 : (env1.Authenticate
        (exporterAfter client pfx config history).AuthenticatingClient).2 with
    | some err =>
      rw [h1] at hauth
      rw [Collect_of_auth_failed env2 _ err hauth, Collect_of_auth_failed env1 _ err h1]
    | none =>
      rw [h1] at hauth
      rw [sent_of_auth_ok env2 _ hreg1 hauth, sent_of_auth_ok env1 _ hreg h1, hf, ha, hn, hg, hs]
  · intro cl
    exact sent_forgets_client env2 _ cl

/-- Witness of C9: the scrape of the spec's example, run twice. -/
theorem second_scrape_repeats_first_witness :
    (calmEnv.Authenticate
        (Collect calmEnv
          (exporterAfter { session := "s0" } "openstack" { settings := [] }
            [])).exporter.AuthenticatingClient).2 =
      (calmEnv.Authenticate
        (exporterAfter { session := "s0" } "openstack" { settings := [] }
          []).AuthenticatingClient).2 ∧
    listResponses calmEnv
        (scrapeClient calmEnv
          (Collect calmEnv
            (exporterAfter { session := "s0" } "openstack" { settings := [] } [])).exporter) =
      listResponses calmEnv
        (scrapeClient calmEnv
          (exporterAfter { session := "s0" } "openstack" { settings := [] } [])) ∧
    (Collect calmEnv
        (exporterAfter { session := "s0" } "openstack" { settings := [] } [])).exporter ≠
      exporterAfter { session := "s0" } "openstack" { settings := [] } [] ∧
    (Collect calmEnv
        (Collect calmEnv
          (exporterAfter { session := "s0" } "openstack" { settings := [] } [])).exporter).sent =
      (Collect calmEnv
        (exporterAfter { session := "s0" } "openstack" { settings := [] } [])).sent :=
  ⟨by decide, rfl, by decide,
    (second_scrape_repeats_first { session := "s0" } "openstack" { settings := [] } []
      calmEnv calmEnv (by decide) rfl).1⟩

/-- C10: the outbound calls of one `Collect` are fixed.  `Authenticate` comes
first; when it fails nothing follows; when it succeeds the five list queries
follow, once each, in the order floating IPs, agents, networks, security
groups, subnets, whatever the list queries answer. -/
theorem outbound_calls_are_fixed (client : AuthenticatingClient) (pfx : String)
    (config : Cloud) (history : List Env) (env : Env) :
    (Collect env (exporterAfter client pfx config history)).calls =
      if (env.Authenticate
          (exporterAfter client pfx config history).AuthenticatingClient).2.isSome then
        [.Authenticate]
      else
        [.Authenticate, .ListFloatingIPsV2, .ListAgentsV2, .ListNetworksV2,
          .ListSecurityGroupsV2, .ListSubnetsV2] := by
  cases hauth : (env.Authenticate
      (exporterAfter client pfx config history).AuthenticatingClient).2 with
  | some err => rw [Collect_of_auth_failed env _ err hauth]; simp
  | none =>
    rw [Collect_of_auth_ok env _ (exporterAfter_registered client pfx config history) hauth]
    simp

end Neutron
